import Mathlib

/-!
Verification of the PATH-app specification against a shallow embedding of
`src/app.py`.

JSON values returned by the upstream HTTP APIs are modelled by the inductive
type `JVal` (numbers are modelled as integers; no claim depends on fractional
values).  Python operations that can raise (`x[k]`, `k in x`, `x.get`,
iteration, `round`, hashing) are modelled as `Except Unit`-valued functions,
so an uncaught Python exception corresponds to an `Except.error` result and a
`try/except` block corresponds to a `match` on such a result.  Real-number
arithmetic (`math.sin`, `math.tan`, `math.acos`, `round`) is idealised over
`ℝ`; `math.acos`'s `ValueError` on arguments outside `[-1, 1]` is modelled
explicitly.
-/

namespace PathApp

/-- Model of a parsed JSON value (`response.json()`). -/
inductive JVal where
  | jnull
  | jbool (b : Bool)
  | jnum (n : Int)
  | jstr (s : String)
  | jarr (xs : List JVal)
  | jobj (kvs : List (String × JVal))

/-- First-key lookup in the association list backing a JSON object. -/
def lookupKv (kvs : List (String × JVal)) (k : String) : Option JVal :=
  (kvs.find? (fun p => p.1 == k)).map (fun p => p.2)

/-- Python truthiness of a JSON value (`if not data: ...`). -/
def truthy : JVal → Bool
  | .jnull => false
  | .jbool b => b
  | .jnum n => n != 0
  | .jstr s => !(s.isEmpty)
  | .jarr xs => !(xs.isEmpty)
  | .jobj kvs => !(kvs.isEmpty)

/-- Python `v == "s"` for a string literal: true exactly for an equal string. -/
def pyEqStr (v : JVal) (s : String) : Bool :=
  match v with
  | .jstr t => t == s
  | _ => false

/-- Python substring test `needle in hay` on strings. -/
def pyInStr (needle hay : String) : Bool :=
  (List.range (hay.length + 1)).any
    (fun i => ((hay.drop i).take needle.length) == needle)

/-- Python membership `k in v` for a string `k`: key test on dicts, element
equality on lists, substring on strings; `TypeError` on non-containers. -/
def pyContains (v : JVal) (k : String) : Except Unit Bool :=
  match v with
  | .jobj kvs => .ok (lookupKv kvs k).isSome
  | .jarr xs => .ok (xs.any (fun x => pyEqStr x k))
  | .jstr s => .ok (pyInStr k s)
  | _ => .error ()

/-- Python subscript `v[k]` with a string key: dict lookup (`KeyError` when
absent); `TypeError` on every other value. -/
def pySubscript (v : JVal) (k : String) : Except Unit JVal :=
  match v with
  | .jobj kvs =>
    match lookupKv kvs k with
    | some x => .ok x
    | none => .error ()
  | _ => .error ()

/-- Python `v.get(k, dflt)`: defaulting dict lookup; `AttributeError` when `v`
is not a dict. -/
def pyGet (v : JVal) (k : String) (dflt : JVal) : Except Unit JVal :=
  match v with
  | .jobj kvs => .ok ((lookupKv kvs k).getD dflt)
  | _ => .error ()

/-- Python iteration `for x in v`: list elements, string characters, dict
keys; `TypeError` otherwise. -/
def pyIter (v : JVal) : Except Unit (List JVal) :=
  match v with
  | .jarr xs => .ok xs
  | .jstr s => .ok (s.data.map (fun c => .jstr (String.singleton c)))
  | .jobj kvs => .ok (kvs.map (fun p => .jstr p.1))
  | _ => .error ()

/-- Numeric value of a list of decimal digits (Python `int` on a digit
string). -/
def digitsVal (l : List Char) : Nat :=
  l.foldl (fun a c => 10 * a + (c.toNat - 48)) 0

/-- The sort key the code applies to a `seconds_to_arrival` value:
`int(x) if str(x).isdigit() else 9999`.  `str(n)` of a non-negative integer
is a digit string; every other modelled value (negative number, non-digit
string, bool, null, list, dict) stringifies to something that is not all
digits. -/
def secKey (v : JVal) : Int :=
  match v with
  | .jnum n => if 0 ≤ n then n else 9999
  | .jstr s => if !(s.isEmpty) && s.data.all Char.isDigit then (digitsVal s.data : Int) else 9999
  | _ => 9999

/-- Whether the code's `str(x).isdigit()` test accepts the value, i.e. the
value is treated as numeric by the sort. -/
def secNumeric (v : JVal) : Bool :=
  match v with
  | .jnum n => 0 ≤ n
  | .jstr s => !(s.isEmpty) && s.data.all Char.isDigit
  | _ => false

/-- One departure record as built in `get_grove_street_departures`.  All
payload-derived fields hold whatever JSON value the message carried. -/
structure Departure where
  direction : String
  destination : JVal
  arrival_time : JVal
  seconds_to_arrival : JVal
  line_color : JVal
  last_updated : JVal
  target : JVal

/-- Sort key on a departure record. -/
def depKey (r : Departure) : Int := secKey r.seconds_to_arrival

/-- Insert into a list sorted by `key`, before the first element whose key is
not smaller — the insertion point a stable sort uses. -/
def insertK (key : α → Int) (a : α) : List α → List α
  | [] => [a]
  | b :: bs => if key b < key a then b :: insertK key a bs else a :: b :: bs

/-- Stable insertion sort by an integer key, modelling Python's stable
`list.sort(key=...)`. -/
def sortK (key : α → Int) : List α → List α
  | [] => []
  | a :: as => insertK key a (sortK key as)

/-- A Python `for`-loop that appends `f x` for each element, propagating the
first uncaught exception. -/
def mapME (f : α → Except Unit β) : List α → Except Unit (List β)
  | [] => .ok []
  | x :: xs =>
    match f x with
    | .error e => .error e
    | .ok y =>
      match mapME f xs with
      | .error e => .error e
      | .ok ys => .ok (y :: ys)

/-- The record built for one message dict (`message.get(...)` calls);
`AttributeError` if the message is not a dict. -/
def departure_of_message (direction : String) (m : JVal) : Except Unit Departure :=
  match m with
  | .jobj kvs =>
    .ok ⟨direction,
         (lookupKv kvs "headSign").getD (.jstr ""),
         (lookupKv kvs "arrivalTimeMessage").getD (.jstr ""),
         (lookupKv kvs "secondsToArrival").getD (.jnum 0),
         (lookupKv kvs "lineColor").getD (.jstr ""),
         (lookupKv kvs "lastUpdated").getD (.jstr ""),
         (lookupKv kvs "target").getD (.jstr "")⟩
  | _ => .error ()

/-- Records generated from one destination group: label decoding plus one
record per message. -/
def processDestination (destination : JVal) : Except Unit (List Departure) :=
  match destination with
  | .jobj kvs =>
    let label := (lookupKv kvs "label").getD (.jstr "")
    let direction := if pyEqStr label "ToNY" then "To New York" else "To New Jersey"
    match pyIter ((lookupKv kvs "messages").getD (.jarr [])) with
    | .error e => .error e
    | .ok items => mapME (departure_of_message direction) items
  | _ => .error ()

/-- Departure list of the matched station: flatten all destination groups and
sort by the seconds-to-arrival key. -/
def processStation (station : JVal) : Except Unit (List Departure) :=
  match station with
  | .jobj kvs =>
    match pyIter ((lookupKv kvs "destinations").getD (.jarr [])) with
    | .error e => .error e
    | .ok ds =>
      match mapME processDestination ds with
      | .error e => .error e
      | .ok lists => .ok (sortK depKey lists.flatten)
  | _ => .error ()

/-- The `consideredStation` test on one station (`station.get(...) == 'GRV'`);
`AttributeError` if the station is not a dict. -/
def stationMatches (st : JVal) : Except Unit Bool :=
  match st with
  | .jobj kvs => .ok (pyEqStr ((lookupKv kvs "consideredStation").getD .jnull) "GRV")
  | _ => .error ()

/-- The station scan: return the departure list of the first station whose
`consideredStation` equals `"GRV"`, `none` when the loop falls through. -/
def findGRV : List JVal → Except Unit (Option (List Departure))
  | [] => .ok none
  | st :: rest =>
    match stationMatches st with
    | .error e => .error e
    | .ok true =>
      match processStation st with
      | .error e => .error e
      | .ok deps => .ok (some deps)
    | .ok false => findGRV rest

/-- `get_grove_street_departures`, taking the (already fetched and parsed)
payload as input: `none` models a failed fetch (`fetch_path_data` returned
`None`).  The result is `Except.error` when the body raises an uncaught
exception, otherwise `ok none` (absent) or `ok (some records)`. -/
def get_grove_street_departures (data : Option JVal) : Except Unit (Option (List Departure)) :=
  match data with
  | none => .ok none
  | some v =>
    if !(truthy v) then .ok none
    else
      match pyContains v "results" with
      | .error e => .error e
      | .ok false => .ok none
      | .ok true =>
        match pySubscript v "results" with
        | .error e => .error e
        | .ok res =>
          match pyIter res with
          | .error e => .error e
          | .ok stations => findGRV stations

/-! ### Solar estimator (`calculate_sunrise_sunset`)

The Python code reads the latitude/longitude from module constants and the
day of year from the current date; the embedding takes them as parameters
(the spec contract is `estimate(date, latitude, longitude)`) and provides the
constants separately.  Floating-point arithmetic is idealised over `ℝ`. -/

noncomputable section

open Real

/-- `GROVE_STREET_LAT` constant. -/
def GROVE_STREET_LAT : ℝ := 40.7197

/-- `GROVE_STREET_LON` constant. -/
def GROVE_STREET_LON : ℝ := -74.0431

/-- `math.radians`. -/
def radiansOf (x : ℝ) : ℝ := x * π / 180

/-- Python `round` (banker's rounding, ties to even) on a real number. -/
def pyRound (x : ℝ) : ℤ :=
  if x - ⌊x⌋ < 1 / 2 then ⌊x⌋
  else if 1 / 2 < x - ⌊x⌋ then ⌊x⌋ + 1
  else if Even ⌊x⌋ then ⌊x⌋ else ⌊x⌋ + 1

/-- Zero-padded two-digit rendering, Python `f"{n:02d}"` for `0 ≤ n ≤ 99`. -/
def pad2 (n : Nat) : String :=
  if n < 10 then "0" ++ toString n else toString n

/-- `format_hour_to_hhmm`: total minutes rounded, wrapped modulo 1440, and
rendered as zero-padded `HH:MM`. -/
def format_hour_to_hhmm (hour_float : ℝ) : String :=
  let total_minutes : Nat := (Int.emod (pyRound (hour_float * 60)) 1440).toNat
  let hours := total_minutes / 60
  let minutes := total_minutes % 60
  pad2 hours ++ ":" ++ pad2 minutes

/-- Solar declination used by the code:
`radians(23.45) * sin(radians(360 * (284 + day_of_year) / 365))`. -/
def solar_decl (day_of_year : ℕ) : ℝ :=
  radiansOf 23.45 * Real.sin (radiansOf (360 * (284 + (day_of_year : ℝ)) / 365))

/-- The argument passed to `math.acos` in the hour-angle computation. -/
def acosArg (day_of_year : ℕ) (lat : ℝ) : ℝ :=
  -Real.tan (radiansOf lat) * Real.tan (solar_decl day_of_year)

/-- `calculate_sunrise_sunset`.  `math.acos` raises `ValueError` exactly when
its argument lies outside `[-1, 1]`; the surrounding `try/except` then
returns the literal fallback pair `("6:30", "18:30")`.  No other operation in
the `try` block can raise, so the function is modelled as a conditional. -/
def calculate_sunrise_sunset (day_of_year : ℕ) (lat lon : ℝ) : String × String :=
  if acosArg day_of_year lat < -1 ∨ 1 < acosArg day_of_year lat then ("6:30", "18:30")
  else
    let hour_angle := Real.arccos (acosArg day_of_year lat)
    let sunrise_hour := 12 - hour_angle * 12 / π - lon / 15 + 1
    let sunset_hour := 12 + hour_angle * 12 / π - lon / 15 + 1
    (format_hour_to_hhmm sunrise_hour, format_hour_to_hhmm sunset_hour)

/-- The solar estimate at the app's fixed coordinates, as `get_weather_data`
invokes it. -/
def calculate_sunrise_sunset_app (day_of_year : ℕ) : String × String :=
  calculate_sunrise_sunset day_of_year GROVE_STREET_LAT GROVE_STREET_LON

end

/-! ### Weather aggregation (`get_weather_data`)

The two upstream calls are modelled as inputs of type `Except Unit JVal`: an
`error` stands for a network error, timeout, or non-2xx status
(`raise_for_status`); an `ok` carries the parsed JSON body.  The current
day of year is a parameter (the code reads the clock). -/

/-- One weather snapshot dict as built by the code. -/
structure Snapshot where
  name : String
  temperature_c : String
  icon : String

/-- The payload returned by `get_weather_data`. -/
structure WPayload where
  jersey_city : Snapshot
  manhattan : Snapshot
  sunrise : String
  sunset : String

/-- The `weather_icons` lookup table keyed by upstream weather code. -/
def weather_icons : List (Int × String) :=
  [(0, "☀️"), (1, "🌤️"), (2, "⛅"), (3, "☁️"), (45, "🌫️"), (48, "🌫️"),
   (51, "🌦️"), (53, "🌧️"), (55, "🌧️"), (61, "🌧️"), (63, "🌧️"), (65, "⛈️"),
   (71, "🌨️"), (73, "🌨️"), (75, "❄️"), (95, "⛈️")]

/-- The default icon used for unrecognized weather codes and in the
exception fallback payload. -/
def defaultIcon : String := "🌤️"

/-- Python `round` applied to a JSON value: numbers (and bools, which are
ints in Python) round; everything else raises `TypeError`. -/
def pyRoundJ (v : JVal) : Except Unit Int :=
  match v with
  | .jnum n => .ok n
  | .jbool b => .ok (if b then 1 else 0)
  | _ => .error ()

/-- `weather_icons.get(code, default)`: integer (and bool, since
`True == 1`) keys hit the table; other hashable values miss and take the
default; unhashable values (lists, dicts) raise `TypeError`. -/
def iconLookup (code : JVal) : Except Unit String :=
  match code with
  | .jnum n => .ok (((weather_icons.find? (fun p => p.1 == n)).map (fun p => p.2)).getD defaultIcon)
  | .jbool b => .ok (((weather_icons.find? (fun p => p.1 == (if b then 1 else 0))).map (fun p => p.2)).getD defaultIcon)
  | .jstr _ => .ok defaultIcon
  | .jnull => .ok defaultIcon
  | _ => .error ()

/-- The per-location body of the loop in `get_weather_data` up to building
the snapshot: temperature and icon extraction.  Returns the parsed body as
well, for the daylight capture that follows. -/
def processLocation (name : String) (out : Except Unit JVal) : Except Unit (JVal × Snapshot) :=
  match out with
  | .error e => .error e
  | .ok data =>
    match pyGet data "current_weather" (.jobj []) with
    | .error e => .error e
    | .ok current =>
      match pyGet current "temperature" (.jnum 0) with
      | .error e => .error e
      | .ok tempv =>
        match pyRoundJ tempv with
        | .error e => .error e
        | .ok temp_c =>
          match pyGet current "weathercode" (.jnum 0) with
          | .error e => .error e
          | .ok codev =>
            match iconLookup codev with
            | .error e => .error e
            | .ok icon => .ok (data, ⟨name, toString temp_c ++ "°C", icon⟩)

/-- Python `v[0]` as used on the daily sunrise/sunset lists (only reached
when the value is truthy): first element of a list or first character of a
string; `TypeError`/`KeyError` otherwise. -/
def pyIndex0 (v : JVal) : Except Unit JVal :=
  match v with
  | .jarr (x :: _) => .ok x
  | .jstr s =>
    match s.data with
    | c :: _ => .ok (.jstr (String.singleton c))
    | [] => .error ()
  | _ => .error ()

/-- Minimal model of `datetime.fromisoformat` followed by
`strftime('%H:%M')`: accepts `YYYY-MM-DDTHH:MM...` and returns the
hour/minute digits; anything else (including a non-string value) raises. -/
def fromisoformat_hm (v : JVal) : Except Unit String :=
  match v with
  | .jstr s =>
    let cs := s.data
    if (decide (cs.length ≥ 16)
        && ((cs.take 4).all Char.isDigit)
        && (cs.get? 4 == some '-') && ((cs.drop 5).take 2).all Char.isDigit
        && (cs.get? 7 == some '-') && ((cs.drop 8).take 2).all Char.isDigit
        && (cs.get? 10 == some 'T')
        && ((cs.drop 11).take 2).all Char.isDigit
        && (cs.get? 13 == some ':')
        && ((cs.drop 14).take 2).all Char.isDigit)
    then .ok (((cs.drop 11).take 2 ++ ':' :: ((cs.drop 14).take 2)).asString)
    else .error ()
  | _ => .error ()

/-- The inner `try` body of the daylight capture: index the two lists, parse
both timestamps, format both as `%H:%M`. -/
def parseDaily (sunrise_list sunset_list : JVal) : Except Unit (String × String) :=
  match pyIndex0 sunrise_list with
  | .error e => .error e
  | .ok si =>
    match pyIndex0 sunset_list with
    | .error e => .error e
    | .ok ti =>
      match fromisoformat_hm si with
      | .error e => .error e
      | .ok sr =>
        match fromisoformat_hm ti with
        | .error e => .error e
        | .ok ss => .ok (sr, ss)

/-- Lines 154–169 of the source: capture the daylight window from one parsed
response (run only while `sunrise_time is None`).  The inner `try/except`
around indexing/parsing falls back to `calculate_sunrise_sunset()`; errors
raised outside it (a non-dict `daily` value) propagate. -/
noncomputable def captureDaylight (day_of_year : ℕ) (data : JVal) :
    Except Unit (Option (String × String)) :=
  match pyContains data "daily" with
  | .error e => .error e
  | .ok false => .ok none
  | .ok true =>
    match pyGet data "daily" (.jobj []) with
    | .error e => .error e
    | .ok daily =>
      match pyGet daily "sunrise" (.jarr []) with
      | .error e => .error e
      | .ok sunrise_list =>
        match pyGet daily "sunset" (.jarr []) with
        | .error e => .error e
        | .ok sunset_list =>
          if truthy sunrise_list && truthy sunset_list then
            match parseDaily sunrise_list sunset_list with
            | .ok p => .ok (some p)
            | .error _ => .ok (some (calculate_sunrise_sunset_app day_of_year))
          else .ok none

/-- The body of the outer `try` in `get_weather_data`: process Jersey City,
possibly capture the daylight window, process Manhattan, capture from it if
still missing, then fall back to the solar estimate. -/
noncomputable def weatherBody (day_of_year : ℕ) (jc mh : Except Unit JVal) :
    Except Unit WPayload :=
  match processLocation "Jersey City" jc with
  | .error e => .error e
  | .ok (jdata, jsnap) =>
    match captureDaylight day_of_year jdata with
    | .error e => .error e
    | .ok sun1 =>
      match processLocation "Manhattan" mh with
      | .error e => .error e
      | .ok (mdata, msnap) =>
        match (match sun1 with
               | some p => (.ok (some p) : Except Unit (Option (String × String)))
               | none => captureDaylight day_of_year mdata) with
        | .error e => .error e
        | .ok sun2 =>
          match sun2 with
          | some p => .ok ⟨jsnap, msnap, p.1, p.2⟩
          | none =>
            .ok ⟨jsnap, msnap, (calculate_sunrise_sunset_app day_of_year).1,
                 (calculate_sunrise_sunset_app day_of_year).2⟩

/-- The payload built in the `except` branch of `get_weather_data`: both
snapshots `"N/A"` with the default icon, daylight window from the solar
estimator. -/
noncomputable def fallbackPayload (day_of_year : ℕ) : WPayload :=
  ⟨⟨"Jersey City", "N/A", defaultIcon⟩, ⟨"Manhattan", "N/A", defaultIcon⟩,
   (calculate_sunrise_sunset_app day_of_year).1, (calculate_sunrise_sunset_app day_of_year).2⟩

/-- `get_weather_data`: the whole body is wrapped in `try/except Exception`,
so the function is total — any error in the body yields the fallback
payload. -/
noncomputable def get_weather_data (day_of_year : ℕ) (jc mh : Except Unit JVal) : WPayload :=
  match weatherBody day_of_year jc mh with
  | .ok p => p
  | .error _ => fallbackPayload day_of_year

/-! ### Spec-side definitions

Predicates written from the specification's words, used to state the claims
against the embedding above. -/

/-- A message value the normalizer can process: a JSON object. -/
def wsMessage (m : JVal) : Bool :=
  match m with
  | .jobj _ => true
  | _ => false

/-- A destination group the normalizer can process: an object whose
`messages` value, when present, is a list of objects. -/
def wsDest (d : JVal) : Bool :=
  match d with
  | .jobj kvs =>
    match lookupKv kvs "messages" with
    | none => true
    | some (.jarr ms) => ms.all wsMessage
    | some _ => false
  | _ => false

/-- A station entry the normalizer can process: an object whose
`destinations` value, when present, is a list of processable groups. -/
def wsStation (s : JVal) : Bool :=
  match s with
  | .jobj kvs =>
    match lookupKv kvs "destinations" with
    | none => true
    | some (.jarr ds) => ds.all wsDest
    | some _ => false
  | _ => false

/-- Well-shaped raw payloads: absent, falsy, or an object whose `results`
value (when present) is a list of processable stations.  On these the
normalizer provably never raises. -/
def wellShaped (data : Option JVal) : Bool :=
  match data with
  | none => true
  | some v =>
    if !(truthy v) then true
    else
      match v with
      | .jobj kvs =>
        match lookupKv kvs "results" with
        | none => true
        | some (.jarr sts) => sts.all wsStation
        | some _ => false
      | _ => false

/-- The payload's `results` collection, when the payload is an object that
has one. -/
def resultsValue (data : Option JVal) : Option JVal :=
  match data with
  | some (.jobj kvs) => lookupKv kvs "results"
  | _ => none

/-- Whether a station entry matches the fixed station identifier `"GRV"`. -/
def isGRVStation (st : JVal) : Bool :=
  match st with
  | .jobj kvs => pyEqStr ((lookupKv kvs "consideredStation").getD .jnull) "GRV"
  | _ => false

/-- The spec's absent condition: the payload lacks a results collection, or
no station in it matches the fixed station identifier.  (The station list is
read off with the same iteration the code uses; when that iteration would
raise, the normalizer raises as well and the condition is moot.) -/
def specAbsent (data : Option JVal) : Prop :=
  match resultsValue data with
  | none => True
  | some rv =>
    match pyIter rv with
    | .error _ => True
    | .ok sts => ∀ st ∈ sts, isGRVStation st = false

/-- A destinations value that yields no departure records: a list (possibly
empty; the absent case surfaces as the default empty list) of destination
objects whose message lists are absent or empty. -/
def emptyDestGroups (dv : JVal) : Prop :=
  ∃ ds, dv = .jarr ds ∧
    ∀ d ∈ ds, ∃ dk, d = .jobj dk ∧ (lookupKv dk "messages").getD (.jarr []) = .jarr []

/-- Spec formula for the sunrise hour:
`12 − hourAngle×12/π − longitude/15 + 1` with
`hourAngle = acos(−tan(latitude)×tan(declination))`. -/
noncomputable def sunriseHourSpec (day_of_year : ℕ) (lat lon : ℝ) : ℝ :=
  12 - Real.arccos (acosArg day_of_year lat) * 12 / Real.pi - lon / 15 + 1

/-- Spec formula for the sunset hour:
`12 + hourAngle×12/π − longitude/15 + 1`. -/
noncomputable def sunsetHourSpec (day_of_year : ℕ) (lat lon : ℝ) : ℝ :=
  12 + Real.arccos (acosArg day_of_year lat) * 12 / Real.pi - lon / 15 + 1

/-- A zero-padded wall-clock rendering within `[00:00, 23:59]`. -/
def isHHMM (s : String) : Prop :=
  ∃ h m : Nat, h < 24 ∧ m < 60 ∧ s = pad2 h ++ ":" ++ pad2 m

/-- The label of a destination group as the code reads it
(`destination.get('label', '')`). -/
def destLabel (d : JVal) : JVal :=
  match d with
  | .jobj kvs => (lookupKv kvs "label").getD (.jstr "")
  | _ => .jnull

/-! ### Concrete inputs used by individual claims -/

/-- A successful Jersey City weather response with temperature 25 °C. -/
def c1Resp : JVal :=
  .jobj [("current_weather", .jobj [("temperature", .jnum 25), ("weathercode", .jnum 0)])]

/-- A raw payload whose matched station carries one numeric
`secondsToArrival` above the 9999 sentinel and one non-numeric one. -/
def c2CexPayload : JVal :=
  .jobj [("results", .jarr [
    .jobj [("consideredStation", .jstr "GRV"),
           ("destinations", .jarr [
              .jobj [("label", .jstr "ToNY"),
                     ("messages", .jarr [
                        .jobj [("secondsToArrival", .jnum 10000)],
                        .jobj [("secondsToArrival", .jstr "abc")]])]])]])]

/-- The spec's section-8 scenario payload: two `"33rd St"` messages with
`secondsToArrival` `"120"` and `"abc"`. -/
def c2WitPayload : JVal :=
  .jobj [("results", .jarr [
    .jobj [("consideredStation", .jstr "GRV"),
           ("destinations", .jarr [
              .jobj [("label", .jstr "ToNY"),
                     ("messages", .jarr [
                        .jobj [("headSign", .jstr "33rd St"), ("secondsToArrival", .jstr "120")],
                        .jobj [("headSign", .jstr "33rd St"), ("secondsToArrival", .jstr "abc")]])]])]])]

/-- The two records the section-8 scenario produces, numeric one first. -/
def c2WitRecords : List Departure :=
  [⟨"To New York", .jstr "33rd St", .jstr "", .jstr "120", .jstr "", .jstr "", .jstr ""⟩,
   ⟨"To New York", .jstr "33rd St", .jstr "", .jstr "abc", .jstr "", .jstr "", .jstr ""⟩]

/-- A well-shaped payload whose only station is not Grove Street. -/
def c5WitPayload : JVal :=
  .jobj [("results", .jarr [.jobj [("consideredStation", .jstr "EXP")]])]

/-- A destination group with one message and no label. -/
def c6WitDest : JVal := .jobj [("messages", .jarr [.jobj []])]

/-- The single record produced from `c6WitDest`. -/
def c6WitRec : Departure :=
  ⟨"To New Jersey", .jstr "", .jstr "", .jnum 0, .jstr "", .jstr "", .jstr ""⟩

/-- A payload whose results contain no station matching `"GRV"`. -/
def c7WitPayload : JVal :=
  .jobj [("results", .jarr [.jobj [("consideredStation", .jstr "NWK")]])]

/-- A Jersey City response whose `current_weather` lacks a temperature but
whose daily block carries parseable sunrise/sunset timestamps. -/
def c9JC : JVal :=
  .jobj [("current_weather", .jobj []),
         ("daily", .jobj [("sunrise", .jarr [.jstr "2024-06-15T05:30:00"]),
                          ("sunset", .jarr [.jstr "2024-06-15T20:28:00"])])]

/-- A Manhattan response whose `current_weather` lacks a temperature. -/
def c9MH : JVal := .jobj [("current_weather", .jobj [])]

/-- The payload the aggregation builds from `c9JC` and `c9MH`. -/
def c9Payload : WPayload :=
  ⟨⟨"Jersey City", "0°C", "☀️"⟩, ⟨"Manhattan", "0°C", "☀️"⟩, "05:30", "20:28"⟩

/-! ### Properties of the stable sort -/

theorem mem_insertK (key : α → Int) (a x : α) (l : List α) :
    x ∈ insertK key a l ↔ x = a ∨ x ∈ l := by
  induction l with
  | nil => simp [insertK]
  | cons b bs ih =>
    simp only [insertK]
    split
    · simp only [List.mem_cons, ih]
      tauto
    · simp only [List.mem_cons]

theorem pairwise_insertK (key : α → Int) (a : α) (l : List α)
    (h : l.Pairwise (fun x y => key x ≤ key y)) :
    (insertK key a l).Pairwise (fun x y => key x ≤ key y) := by
  induction l with
  | nil => simp [insertK]
  | cons b bs ih =>
    rcases List.pairwise_cons.mp h with ⟨hb, hbs⟩
    simp only [insertK]
    split
    · rename_i hlt
      refine List.pairwise_cons.mpr ⟨?_, ih hbs⟩
      intro x hx
      rcases (mem_insertK key a x bs).mp hx with rfl | hxm
      · exact le_of_lt hlt
      · exact hb x hxm
    · rename_i hnlt
      refine List.pairwise_cons.mpr ⟨?_, h⟩
      intro x hx
      rcases List.mem_cons.mp hx with rfl | hxm
      · exact not_lt.mp hnlt
      · exact le_trans (not_lt.mp hnlt) (hb x hxm)

theorem sortK_pairwise (key : α → Int) (l : List α) :
    (sortK key l).Pairwise (fun x y => key x ≤ key y) := by
  induction l with
  | nil => simp [sortK]
  | cons a as ih => exact pairwise_insertK key a _ ih

theorem filter_insertK (key : α → Int) (a : α) (l : List α) (k : Int) :
    (insertK key a l).filter (fun x => key x == k) =
      if key a = k then a :: l.filter (fun x => key x == k)
      else l.filter (fun x => key x == k) := by
  induction l with
  | nil => by_cases hak : key a = k <;> simp [insertK, List.filter_cons, hak]
  | cons b bs ih =>
    simp only [insertK]
    split
    · rename_i hlt
      by_cases hbk : key b = k
      · by_cases hak : key a = k
        · omega
        · simp [List.filter_cons, hbk, hak, ih]
      · simp [List.filter_cons, hbk, ih]
    · simp [List.filter_cons]

theorem sortK_filter (key : α → Int) (l : List α) (k : Int) :
    (sortK key l).filter (fun x => key x == k) = l.filter (fun x => key x == k) := by
  induction l with
  | nil => rfl
  | cons a as ih =>
    simp only [sortK]
    rw [filter_insertK]
    by_cases hak : key a = k
    · simp [List.filter_cons, hak, ih]
    · simp [List.filter_cons, hak, ih]

/-! ### Generic facts about the exception-propagating loop -/

theorem mapME_ok_of_all {α β} {f : α → Except Unit β} (l : List α)
    (h : ∀ x ∈ l, ∃ y, f x = .ok y) : ∃ ys, mapME f l = .ok ys := by
  induction l with
  | nil => exact ⟨[], rfl⟩
  | cons a as ih =>
    obtain ⟨y, hy⟩ := h a (List.mem_cons_self a as)
    obtain ⟨ys, hys⟩ := ih (fun x hx => h x (List.mem_cons_of_mem a hx))
    exact ⟨y :: ys, by simp [mapME, hy, hys]⟩

theorem mapME_ok_mem {α β} {f : α → Except Unit β} (l : List α) (ys : List β)
    (h : mapME f l = .ok ys) (y : β) (hy : y ∈ ys) : ∃ x ∈ l, f x = .ok y := by
  induction l generalizing ys with
  | nil =>
    injection h with h'
    subst h'
    exact absurd hy (by simp)
  | cons a as ih =>
    unfold mapME at h
    cases hfa : f a with
    | error e => simp only [hfa] at h; exact absurd h (by simp)
    | ok z =>
      simp only [hfa] at h
      cases hmm : mapME f as with
      | error e => simp only [hmm] at h; exact absurd h (by simp)
      | ok zs =>
        simp only [hmm] at h
        injection h with h'
        subst h'
        rcases List.mem_cons.mp hy with rfl | hmem
        · exact ⟨a, List.mem_cons_self a as, hfa⟩
        · obtain ⟨x, hx, hfx⟩ := ih zs hmm hmem
          exact ⟨x, List.mem_cons_of_mem a hx, hfx⟩

/-! ### Structure of successful normalizer runs -/

theorem processStation_sortform (st : JVal) (d : List Departure)
    (h : processStation st = .ok d) : ∃ m, d = sortK depKey m := by
  unfold processStation at h
  split at h
  · split at h
    · exact absurd h (by simp)
    · split at h
      · exact absurd h (by simp)
      · exact ⟨_, by injection h with h'; exact h'.symm⟩
  · exact absurd h (by simp)

theorem findGRV_ok_some (sts : List JVal) (l : List Departure)
    (h : findGRV sts = .ok (some l)) : ∃ m, l = sortK depKey m := by
  induction sts with
  | nil => simp [findGRV] at h
  | cons st rest ih =>
    unfold findGRV at h
    split at h
    · exact absurd h (by simp)
    · split at h
      · exact absurd h (by simp)
      · rename_i deps hp
        have : deps = l := by injection h with h'; injection h'
        exact this ▸ processStation_sortform st deps hp
    · exact ih h

theorem get_grove_street_departures_ok_some (data : Option JVal) (l : List Departure)
    (h : get_grove_street_departures data = .ok (some l)) : ∃ m, l = sortK depKey m := by
  unfold get_grove_street_departures at h
  split at h
  · exact absurd h (by simp)
  · split at h
    · exact absurd h (by simp)
    · split at h
      · exact absurd h (by simp)
      · exact absurd h (by simp)
      · split at h
        · exact absurd h (by simp)
        · split at h
          · exact absurd h (by simp)
          · rename_i stations _
            exact findGRV_ok_some stations l h

/-! ### Well-formedness of the HH:MM formatter -/

theorem format_isHHMM (x : ℝ) : isHHMM (format_hour_to_hhmm x) := by
  unfold format_hour_to_hhmm
  have h0 : (0 : Int) ≤ Int.emod (pyRound (x * 60)) 1440 :=
    Int.emod_nonneg _ (by norm_num)
  have h1 : Int.emod (pyRound (x * 60)) 1440 < 1440 :=
    Int.emod_lt_of_pos _ (by norm_num)
  refine ⟨(Int.emod (pyRound (x * 60)) 1440).toNat / 60,
          (Int.emod (pyRound (x * 60)) 1440).toNat % 60, ?_, ?_, rfl⟩
  · omega
  · omega

/-! ### A concrete out-of-range input for the hour-angle computation

At latitude 89 (degrees) on day 172 the product `tan(lat)·tan(decl)`
exceeds 1, so the `acos` argument falls below −1 and `math.acos` raises. -/

theorem sin_theta_day172 : Real.sin (radiansOf (360 * (284 + ((172 : ℕ) : ℝ)) / 365)) ≥ 1 / 2 := by
  have hθ : radiansOf (360 * (284 + ((172 : ℕ) : ℝ)) / 365) = 182 / 365 * Real.pi + 2 * Real.pi := by
    unfold radiansOf
    push_cast
    ring
  rw [hθ, Real.sin_add_two_pi,
      show (182 : ℝ) / 365 * Real.pi = Real.pi / 2 - 1 / 730 * Real.pi by ring,
      Real.sin_pi_div_two_sub]
  have h1 : Real.cos (Real.pi / 3) ≤ Real.cos (1 / 730 * Real.pi) := by
    apply Real.cos_le_cos_of_nonneg_of_le_pi
    · positivity
    · linarith [Real.pi_pos]
    · linarith [Real.pi_pos]
  rw [Real.cos_pi_div_three] at h1
  linarith

theorem tan_decl_day172 : 0.195 ≤ Real.tan (solar_decl 172) := by
  have hs := sin_theta_day172
  have hrad : radiansOf 23.45 = 23.45 * Real.pi / 180 := by unfold radiansOf; ring
  have hsle := Real.sin_le_one (radiansOf (360 * (284 + ((172 : ℕ) : ℝ)) / 365))
  have hpi3 := Real.pi_gt_three
  have hpi315 := Real.pi_lt_d2
  have hlb : 23.45 / 360 * Real.pi ≤ solar_decl 172 := by
    unfold solar_decl
    rw [hrad]
    nlinarith [Real.pi_pos]
  have hub : solar_decl 172 < Real.pi / 2 := by
    unfold solar_decl
    rw [hrad]
    nlinarith [Real.pi_pos]
  have hpos : 0 < solar_decl 172 := by nlinarith [Real.pi_pos]
  have htan := Real.lt_tan hpos hub
  nlinarith [Real.pi_pos]

theorem tan_lat89 : 28 ≤ Real.tan (radiansOf 89) := by
  have hr : radiansOf 89 = 89 * Real.pi / 180 := by unfold radiansOf; ring
  have hcos : Real.cos (89 * Real.pi / 180) = Real.sin (Real.pi / 180) := by
    rw [show (89 : ℝ) * Real.pi / 180 = Real.pi / 2 - Real.pi / 180 by ring,
        Real.cos_pi_div_two_sub]
  have hsin : Real.sin (89 * Real.pi / 180) = Real.cos (Real.pi / 180) := by
    rw [show (89 : ℝ) * Real.pi / 180 = Real.pi / 2 - Real.pi / 180 by ring,
        Real.sin_pi_div_two_sub]
  have hs_pos : 0 < Real.sin (Real.pi / 180) :=
    Real.sin_pos_of_pos_of_lt_pi (by positivity) (by linarith [Real.pi_pos])
  have hs_ub : Real.sin (Real.pi / 180) < Real.pi / 180 := Real.sin_lt (by positivity)
  have hc_lb : (1 : ℝ) / 2 ≤ Real.cos (Real.pi / 180) := by
    have h1 : Real.cos (Real.pi / 3) ≤ Real.cos (Real.pi / 180) := by
      apply Real.cos_le_cos_of_nonneg_of_le_pi
      · positivity
      · linarith [Real.pi_pos]
      · linarith [Real.pi_pos]
    rw [Real.cos_pi_div_three] at h1
    linarith
  rw [hr, Real.tan_eq_sin_div_cos, hsin, hcos, le_div_iff₀ hs_pos]
  nlinarith [Real.pi_lt_d2]

theorem acosArg_out_89_172 : acosArg 172 89 < -1 := by
  have h1 := tan_lat89
  have h2 := tan_decl_day172
  unfold acosArg
  have hprod : (28 : ℝ) * 0.195 ≤ Real.tan (radiansOf 89) * Real.tan (solar_decl 172) :=
    mul_le_mul h1 h2 (by norm_num) (by linarith)
  nlinarith

/-! ### Direction decoding, sort-key facts, and the station scan -/

theorem pyEqStr_true_iff (v : JVal) (s : String) : pyEqStr v s = true ↔ v = .jstr s := by
  cases v <;> simp [pyEqStr]

theorem departure_of_message_direction (dir : String) (m : JVal) (r : Departure)
    (h : departure_of_message dir m = .ok r) : r.direction = dir := by
  cases m with
  | jobj kvs =>
    simp only [departure_of_message] at h
    injection h with h'
    rw [← h']
  | jnull => exact Except.noConfusion h
  | jbool b' => exact Except.noConfusion h
  | jnum n => exact Except.noConfusion h
  | jstr s => exact Except.noConfusion h
  | jarr xs => exact Except.noConfusion h

theorem secKey_of_not_numeric (v : JVal) (h : secNumeric v = false) : secKey v = 9999 := by
  cases v <;> simp_all [secNumeric, secKey]

theorem stationMatches_ok (st : JVal) (b : Bool) (h : stationMatches st = .ok b) :
    isGRVStation st = b := by
  cases st with
  | jobj kvs =>
    simp only [stationMatches] at h
    injection h with h'
  | jnull => exact Except.noConfusion h
  | jbool b' => exact Except.noConfusion h
  | jnum n => exact Except.noConfusion h
  | jstr s => exact Except.noConfusion h
  | jarr xs => exact Except.noConfusion h

theorem findGRV_none_iff (sts : List JVal) (r : Option (List Departure))
    (h : findGRV sts = .ok r) : r = none ↔ ∀ st ∈ sts, isGRVStation st = false := by
  induction sts generalizing r with
  | nil =>
    injection h with h'
    subst h'
    simp
  | cons st rest ih =>
    unfold findGRV at h
    cases hm : stationMatches st with
    | error e => simp only [hm] at h; exact absurd h (by simp)
    | ok b =>
      simp only [hm] at h
      have hgrv := stationMatches_ok st b hm
      cases b with
      | false =>
        simp only [List.mem_cons]
        constructor
        · intro hr
          intro x hx
          rcases hx with rfl | hx
          · exact hgrv
          · exact ((ih r h).mp hr) x hx
        · intro hall
          exact (ih r h).mpr (fun x hx => hall x (Or.inr hx))
      | true =>
        cases hp : processStation st with
        | error e => simp only [hp] at h; exact absurd h (by simp)
        | ok deps =>
          simp only [hp] at h
          injection h with h'
          subst h'
          constructor
          · intro hr; exact absurd hr (by simp)
          · intro hall
            have := hall st (List.mem_cons_self st rest)
            rw [hgrv] at this
            exact absurd this (by simp)

/-! ### Totality on well-shaped payloads, and string facts -/

theorem processDestination_ok_of_ws (d : JVal) (h : wsDest d = true) :
    ∃ x, processDestination d = .ok x := by
  cases d with
  | jobj kvs =>
    unfold processDestination
    cases hm : lookupKv kvs "messages" with
    | none => exact ⟨[], by simp [hm, pyIter, mapME]⟩
    | some mv =>
      simp only [wsDest, hm] at h
      cases mv with
      | jarr ms =>
        have hall : ∀ m ∈ ms, ∃ y,
            departure_of_message
              (if pyEqStr ((lookupKv kvs "label").getD (.jstr "")) "ToNY"
               then "To New York" else "To New Jersey") m = .ok y := by
          intro m hm'
          have hw := (List.all_eq_true.mp h) m hm'
          cases m with
          | jobj mk => exact ⟨_, rfl⟩
          | jnull => simp [wsMessage] at hw
          | jbool b => simp [wsMessage] at hw
          | jnum n => simp [wsMessage] at hw
          | jstr str => simp [wsMessage] at hw
          | jarr xs => simp [wsMessage] at hw
        obtain ⟨ys, hys⟩ := mapME_ok_of_all ms hall
        exact ⟨ys, by simp [hm, pyIter, hys]⟩
      | jnull => simp at h
      | jbool b => simp at h
      | jnum n => simp at h
      | jstr s => simp at h
      | jobj kvs2 => simp at h
  | jnull => simp [wsDest] at h
  | jbool b => simp [wsDest] at h
  | jnum n => simp [wsDest] at h
  | jstr s => simp [wsDest] at h
  | jarr xs => simp [wsDest] at h

theorem processStation_ok_of_ws (s : JVal) (h : wsStation s = true) :
    ∃ x, processStation s = .ok x := by
  cases s with
  | jobj kvs =>
    unfold processStation
    cases hm : lookupKv kvs "destinations" with
    | none => exact ⟨[], by simp [hm, pyIter, mapME, sortK]⟩
    | some dv =>
      simp only [wsStation, hm] at h
      cases dv with
      | jarr ds =>
        have hall : ∀ d ∈ ds, ∃ y, processDestination d = .ok y := by
          intro d hd
          exact processDestination_ok_of_ws d ((List.all_eq_true.mp h) d hd)
        obtain ⟨ys, hys⟩ := mapME_ok_of_all ds hall
        exact ⟨sortK depKey ys.flatten, by simp [hm, pyIter, hys]⟩
      | jnull => simp at h
      | jbool b => simp at h
      | jnum n => simp at h
      | jstr str => simp at h
      | jobj kvs2 => simp at h
  | jnull => simp [wsStation] at h
  | jbool b => simp [wsStation] at h
  | jnum n => simp [wsStation] at h
  | jstr str => simp [wsStation] at h
  | jarr xs => simp [wsStation] at h

theorem findGRV_ok_of_ws (sts : List JVal) (h : ∀ st ∈ sts, wsStation st = true) :
    ∃ r, findGRV sts = .ok r := by
  induction sts with
  | nil => exact ⟨none, rfl⟩
  | cons st rest ih =>
    have hst := h st (List.mem_cons_self st rest)
    have hjobj : ∃ kvs, st = .jobj kvs := by
      cases st with
      | jobj kvs => exact ⟨kvs, rfl⟩
      | jnull => simp [wsStation] at hst
      | jbool b => simp [wsStation] at hst
      | jnum n => simp [wsStation] at hst
      | jstr str => simp [wsStation] at hst
      | jarr xs => simp [wsStation] at hst
    obtain ⟨kvs, rfl⟩ := hjobj
    unfold findGRV
    simp only [stationMatches]
    by_cases hb : pyEqStr ((lookupKv kvs "consideredStation").getD .jnull) "GRV"
    · obtain ⟨x, hx⟩ := processStation_ok_of_ws _ hst
      exact ⟨some x, by simp [hb, hx]⟩
    · obtain ⟨r, hr⟩ := ih (fun s hs => h s (List.mem_cons_of_mem _ hs))
      exact ⟨r, by simp [hb, hr]⟩

theorem normalizer_total_of_wellShaped (data : Option JVal) (h : wellShaped data = true) :
    ∃ r, get_grove_street_departures data = .ok r := by
  cases data with
  | none => exact ⟨none, rfl⟩
  | some v =>
    by_cases htr : truthy v
    · simp only [wellShaped, htr] at h
      cases v with
      | jobj kvs =>
        cases hlk : lookupKv kvs "results" with
        | none =>
          refine ⟨none, ?_⟩
          simp [get_grove_street_departures, htr, pyContains, hlk]
        | some rv =>
          simp only [hlk] at h
          cases rv with
          | jarr sts =>
            obtain ⟨r, hr⟩ := findGRV_ok_of_ws sts (fun s hs => (List.all_eq_true.mp h) s hs)
            refine ⟨r, ?_⟩
            simp [get_grove_street_departures, htr, pyContains, hlk, pySubscript, pyIter, hr]
          | jnull => simp at h
          | jbool b => simp at h
          | jnum n => simp at h
          | jstr s => simp at h
          | jobj kvs2 => simp at h
      | jnull => simp at h
      | jbool b => simp at h
      | jnum n => simp at h
      | jstr s => simp at h
      | jarr xs => simp at h
    · exact ⟨none, by simp [get_grove_street_departures, htr]⟩

theorem getLast?_append_two (l : List Char) (a b : Char) :
    (l ++ [a, b]).getLast? = some b := by
  induction l with
  | nil => rfl
  | cons c cs ih =>
    rw [List.cons_append]
    cases cs with
    | nil => rfl
    | cons d ds =>
      rw [List.cons_append] at ih ⊢
      rw [List.getLast?_cons_cons]
      exact ih

theorem tempStr_ne_NA (t : Int) : toString t ++ "°C" ≠ "N/A" := by
  intro h
  have h2 := congrArg (fun s : String => s.data.getLast?) h
  simp only [String.data_append] at h2
  have h3 : ((toString t).data ++ ['°', 'C']).getLast? = some 'C' :=
    getLast?_append_two _ _ _
  rw [h3] at h2
  have h5 : (['N', '/', 'A'] : List Char).getLast? = some 'A' := rfl
  rw [h5] at h2
  injection h2 with h6
  exact absurd h6 (by decide)

/-! ### Snapshot extraction on the weather success path -/

theorem processLocation_ok_shape (name : String) (out : Except Unit JVal)
    (pr : JVal × Snapshot) (h : processLocation name out = .ok pr) :
    pr.2.name = name ∧ ∃ t : Int, pr.2.temperature_c = toString t ++ "°C" := by
  unfold processLocation at h
  split at h
  · exact Except.noConfusion h
  · split at h
    · exact Except.noConfusion h
    · split at h
      · exact Except.noConfusion h
      · split at h
        · exact Except.noConfusion h
        · split at h
          · exact Except.noConfusion h
          · split at h
            · exact Except.noConfusion h
            · injection h with h'
              subst h'
              exact ⟨rfl, _, rfl⟩

theorem processLocation_missing_temp (name : String) (kvs cw : List (String × JVal))
    (pr : JVal × Snapshot) (h : processLocation name (.ok (.jobj kvs)) = .ok pr)
    (hcw : lookupKv kvs "current_weather" = some (.jobj cw))
    (ht : lookupKv cw "temperature" = none) :
    pr.2.temperature_c = "0°C" := by
  simp only [processLocation, pyGet, hcw, ht, Option.getD, pyRoundJ] at h
  split at h
  · exact Except.noConfusion h
  · injection h with h'
    subst h'
    rfl

theorem weatherBody_snapshots (d : ℕ) (jc mh : Except Unit JVal) (p : WPayload)
    (h : weatherBody d jc mh = .ok p) :
    ∃ j1 s1 j2 s2, processLocation "Jersey City" jc = .ok (j1, s1) ∧
      processLocation "Manhattan" mh = .ok (j2, s2) ∧
      p.jersey_city = s1 ∧ p.manhattan = s2 := by
  unfold weatherBody at h
  cases hj : processLocation "Jersey City" jc with
  | error e => simp only [hj] at h; exact Except.noConfusion h
  | ok pr1 =>
    obtain ⟨j1, s1⟩ := pr1
    simp only [hj] at h
    cases hc1 : captureDaylight d j1 with
    | error e => simp only [hc1] at h; exact Except.noConfusion h
    | ok sun1 =>
      simp only [hc1] at h
      cases hm : processLocation "Manhattan" mh with
      | error e => simp only [hm] at h; exact Except.noConfusion h
      | ok pr2 =>
        obtain ⟨j2, s2⟩ := pr2
        simp only [hm] at h
        refine ⟨j1, s1, j2, s2, rfl, rfl, ?_⟩
        cases sun1 with
        | some q =>
          simp only [] at h
          injection h with h'
          subst h'
          exact ⟨rfl, rfl⟩
        | none =>
          simp only [] at h
          cases hc2 : captureDaylight d j2 with
          | error e => simp only [hc2] at h; exact Except.noConfusion h
          | ok sun2 =>
            simp only [hc2] at h
            cases sun2 with
            | some q =>
              injection h with h'
              subst h'
              exact ⟨rfl, rfl⟩
            | none =>
              injection h with h'
              subst h'
              exact ⟨rfl, rfl⟩

/-! ### Stations that contribute nothing -/

theorem processDestination_empty (dk : List (String × JVal))
    (h : (lookupKv dk "messages").getD (.jarr []) = .jarr []) :
    processDestination (.jobj dk) = .ok [] := by
  simp only [processDestination]
  rw [h]
  rfl

theorem mapME_all_nil (ds : List JVal)
    (h : ∀ d ∈ ds, processDestination d = .ok []) :
    ∃ ls, mapME processDestination ds = .ok ls ∧ ls.flatten = ([] : List Departure) := by
  induction ds with
  | nil => exact ⟨[], rfl, rfl⟩
  | cons d rest ih =>
    obtain ⟨ls, hls, hfl⟩ := ih (fun x hx => h x (List.mem_cons_of_mem d hx))
    refine ⟨[] :: ls, ?_, by simp [hfl]⟩
    simp [mapME, h d (List.mem_cons_self d rest), hls]

theorem processStation_empty (skvs : List (String × JVal))
    (hdest : emptyDestGroups ((lookupKv skvs "destinations").getD (.jarr []))) :
    processStation (.jobj skvs) = .ok [] := by
  obtain ⟨ds, hds, hall⟩ := hdest
  simp only [processStation]
  rw [hds]
  have hempty : ∀ d ∈ ds, processDestination d = .ok [] := by
    intro d hd
    obtain ⟨dk, rfl, hmsg⟩ := hall d hd
    exact processDestination_empty dk hmsg
  obtain ⟨ls, hls, hfl⟩ := mapME_all_nil ds hempty
  simp [pyIter, hls, hfl, sortK]

theorem findGRV_cons_false (pk : List (String × JVal)) (rest : List JVal)
    (hg : isGRVStation (.jobj pk) = false) :
    findGRV (.jobj pk :: rest) = findGRV rest := by
  have h1 : stationMatches (.jobj pk) = .ok false := by
    simp only [stationMatches]
    exact congrArg Except.ok hg
  conv_lhs => rw [findGRV]
  rw [h1]

theorem findGRV_append_skip (pre rest : List JVal)
    (hpre : ∀ s ∈ pre, ∃ pk, s = .jobj pk ∧ isGRVStation s = false) :
    findGRV (pre ++ rest) = findGRV rest := by
  induction pre with
  | nil => simp
  | cons a as ih =>
    obtain ⟨pk, rfl, hg⟩ := hpre a (List.mem_cons_self a as)
    rw [List.cons_append, findGRV_cons_false pk (as ++ rest) hg]
    exact ih (fun s hs => hpre s (List.mem_cons_of_mem _ hs))

/-! ### The claims -/

/-- Claim C7 (corrected).  For every raw payload on which the normalizer
returns without raising, it returns absent exactly when the payload lacks a
results collection or its results contain no station matching `"GRV"`.  (As
stated, the claim fails: a payload such as the number `5` lacks a results
collection yet makes the membership test raise a `TypeError` instead of
returning absent — see the counterexample.) -/
theorem claim_C7_theorem (data : Option JVal) (r : Option (List Departure))
    (h : get_grove_street_departures data = .ok r) : r = none ↔ specAbsent data := by
  cases data with
  | none =>
    injection h with h'
    subst h'
    simp [specAbsent, resultsValue]
  | some v =>
    simp only [get_grove_street_departures] at h
    by_cases htr : truthy v
    · rw [if_neg (by simp [htr])] at h
      cases v with
      | jnull => exact Except.noConfusion h
      | jbool b => exact Except.noConfusion h
      | jnum n => exact Except.noConfusion h
      | jstr s =>
        simp only [pyContains] at h
        by_cases hc : pyInStr "results" s
        · simp only [hc] at h
          exact Except.noConfusion h
        · simp only [hc] at h
          injection h with h'
          subst h'
          simp [specAbsent, resultsValue]
      | jarr xs =>
        simp only [pyContains] at h
        by_cases hc : xs.any (fun x => pyEqStr x "results")
        · simp only [hc] at h
          exact Except.noConfusion h
        · simp only [hc] at h
          injection h with h'
          subst h'
          simp [specAbsent, resultsValue]
      | jobj kvs =>
        simp only [pyContains] at h
        cases hlk : lookupKv kvs "results" with
        | none =>
          simp only [hlk, Option.isSome_none] at h
          injection h with h'
          subst h'
          simp [specAbsent, resultsValue, hlk]
        | some rv =>
          simp only [hlk, Option.isSome_some] at h
          simp only [pySubscript, hlk] at h
          cases hit : pyIter rv with
          | error e =>
            simp only [hit] at h
            exact Except.noConfusion h
          | ok stations =>
            simp only [hit] at h
            rw [findGRV_none_iff stations r h]
            simp [specAbsent, resultsValue, hlk, hit]
    · rw [if_pos (by simp [htr])] at h
      injection h with h'
      subst h'
      cases v with
      | jobj kvs =>
        cases kvs with
        | nil => simp [specAbsent, resultsValue, lookupKv]
        | cons p ps => exact absurd rfl htr
      | jnull => simp [specAbsent, resultsValue]
      | jbool b => simp [specAbsent, resultsValue]
      | jnum n => simp [specAbsent, resultsValue]
      | jstr str => simp [specAbsent, resultsValue]
      | jarr xs => simp [specAbsent, resultsValue]

/-- Claim C7 counterexample: the raw payload `5` lacks a results collection,
but `get_grove_street_departures` raises (`'results' in 5` is a `TypeError`)
instead of returning absent. -/
theorem claim_C7_counterexample :
    specAbsent (some (.jnum 5)) ∧ get_grove_street_departures (some (.jnum 5)) = .error () :=
  ⟨trivial, rfl⟩

/-- Claim C7 witness: a payload whose only station is not Grove Street is
normalized without raising, and the result is absent in accordance with the
amended claim. -/
theorem claim_C7_witness :
    get_grove_street_departures (some c7WitPayload) = .ok none ∧
    ((none : Option (List Departure)) = none ↔ specAbsent (some c7WitPayload)) :=
  ⟨rfl, claim_C7_theorem (some c7WitPayload) none rfl⟩

/-- Claim C2 (corrected).  Every departure list the normalizer returns is
sorted ascending by the coerced key (non-numeric `secondsToArrival` values
count as the sentinel 9999); the sort used is stable (it preserves the
relative order of equal keys: filtering any key class commutes with
sorting); and every non-numeric entry is positioned after every numeric
entry whose value is below the sentinel.  (The unrestricted positioning
clause of the claim fails: a numeric value of 10000 sorts after the
non-numeric entries — see the counterexample.) -/
theorem claim_C2_theorem (data : Option JVal) (l : List Departure)
    (h : get_grove_street_departures data = .ok (some l)) :
    l.Pairwise (fun a b => depKey a ≤ depKey b) ∧
    l.Pairwise (fun a b => secNumeric b.seconds_to_arrival = true →
      secKey b.seconds_to_arrival < 9999 → secNumeric a.seconds_to_arrival = true) ∧
    (∀ (l' : List Departure) (k : Int),
      (sortK depKey l').filter (fun x => depKey x == k) = l'.filter (fun x => depKey x == k)) := by
  obtain ⟨m, rfl⟩ := get_grove_street_departures_ok_some data l h
  refine ⟨sortK_pairwise depKey m, ?_, fun l' k => sortK_filter depKey l' k⟩
  refine (sortK_pairwise depKey m).imp ?_
  intro a b hab hnb hlt
  by_contra hna
  have hna' : secNumeric a.seconds_to_arrival = false := by
    cases hsn : secNumeric a.seconds_to_arrival
    · rfl
    · exact absurd hsn hna
  have h9 : secKey a.seconds_to_arrival = 9999 := secKey_of_not_numeric _ hna'
  have hle : depKey a ≤ depKey b := hab
  unfold depKey at hle
  omega

/-- Claim C2 counterexample: with messages carrying `secondsToArrival`
10000 and `"abc"`, the returned list places the non-numeric `"abc"` entry
before the numeric 10000 entry, so a non-numeric entry is not positioned
after every numeric entry. -/
theorem claim_C2_counterexample :
    get_grove_street_departures (some c2CexPayload) =
      .ok (some [⟨"To New York", .jstr "", .jstr "", .jstr "abc", .jstr "", .jstr "", .jstr ""⟩,
                 ⟨"To New York", .jstr "", .jstr "", .jnum 10000, .jstr "", .jstr "", .jstr ""⟩]) ∧
    secNumeric (JVal.jstr "abc") = false ∧ secNumeric (JVal.jnum 10000) = true :=
  ⟨rfl, rfl, rfl⟩

/-- Claim C2 witness: the spec's section-8 scenario payload normalizes to
the two `"33rd St"` records with the numeric one first, and the amended
ordering properties hold on it. -/
theorem claim_C2_witness :
    get_grove_street_departures (some c2WitPayload) = .ok (some c2WitRecords) ∧
    (c2WitRecords.Pairwise (fun a b => depKey a ≤ depKey b) ∧
     c2WitRecords.Pairwise (fun a b => secNumeric b.seconds_to_arrival = true →
       secKey b.seconds_to_arrival < 9999 → secNumeric a.seconds_to_arrival = true) ∧
     (∀ (l' : List Departure) (k : Int),
       (sortK depKey l').filter (fun x => depKey x == k) = l'.filter (fun x => depKey x == k))) :=
  ⟨rfl, claim_C2_theorem (some c2WitPayload) c2WitRecords rfl⟩

/-- Claim C5 (corrected).  On well-shaped payloads — absent, falsy, or an
object whose `results` value (when present) is a list of station objects
whose `destinations`/`messages` values (when present) are lists of objects —
the departures operation never raises and returns either a record list or
the absent placeholder.  (The unrestricted claim fails: a non-list `results`
value raises — see the counterexample.) -/
theorem claim_C5_theorem (data : Option JVal) (h : wellShaped data = true) :
    ∃ r, get_grove_street_departures data = .ok r :=
  normalizer_total_of_wellShaped data h

/-- Claim C5 counterexample: a payload whose `results` value is the number
`5` makes `get_grove_street_departures` raise a `TypeError` (iterating a
non-iterable), which surfaces as a non-2xx response from the endpoint. -/
theorem claim_C5_counterexample :
    get_grove_street_departures (some (.jobj [("results", .jnum 5)])) = .error () := rfl

/-- Claim C5 witness: a concrete well-shaped payload on which the
normalizer provably returns without raising. -/
theorem claim_C5_witness :
    wellShaped (some c5WitPayload) = true ∧
    ∃ r, get_grove_street_departures (some c5WitPayload) = .ok r :=
  ⟨rfl, claim_C5_theorem (some c5WitPayload) rfl⟩


/-- Claim C6 (confirmed).  For every destination group processed for the
matched station, each generated record's direction is `"To New York"`
exactly when the group's label equals `"ToNY"`, and `"To New Jersey"` for
every other label value, including an empty or absent label (the absent
case reads the default empty-string label, which is not `"ToNY"`). -/
theorem claim_C6_theorem (dest : JVal) (recs : List Departure)
    (h : processDestination dest = .ok recs) (r : Departure) (hr : r ∈ recs) :
    (r.direction = "To New York" ∨ r.direction = "To New Jersey") ∧
    (r.direction = "To New York" ↔ destLabel dest = .jstr "ToNY") := by
  cases dest with
  | jobj kvs =>
    simp only [processDestination] at h
    cases hit : pyIter ((lookupKv kvs "messages").getD (.jarr [])) with
    | error e => simp only [hit] at h; exact Except.noConfusion h
    | ok items =>
      simp only [hit] at h
      obtain ⟨m, hm, hfm⟩ := mapME_ok_mem items recs h r hr
      have hdir := departure_of_message_direction _ _ _ hfm
      by_cases hl : pyEqStr ((lookupKv kvs "label").getD (.jstr "")) "ToNY"
      · rw [if_pos hl] at hdir
        refine ⟨Or.inl hdir, ?_⟩
        rw [hdir]
        simp [destLabel, (pyEqStr_true_iff _ _).mp hl]
      · rw [if_neg hl] at hdir
        refine ⟨Or.inr hdir, ?_⟩
        rw [hdir]
        constructor
        · intro hcontra
          exact absurd hcontra (by decide)
        · intro hlab
          exfalso
          apply hl
          rw [pyEqStr_true_iff]
          simpa [destLabel] using hlab
  | jnull => exact Except.noConfusion h
  | jbool b => exact Except.noConfusion h
  | jnum n => exact Except.noConfusion h
  | jstr s => exact Except.noConfusion h
  | jarr xs => exact Except.noConfusion h

/-- Claim C6 witness: a destination group with an absent label yields a
record whose direction is `"To New Jersey"`, conforming to the claimed
binary classification. -/
theorem claim_C6_witness :
    processDestination c6WitDest = .ok [c6WitRec] ∧
    ((c6WitRec.direction = "To New York" ∨ c6WitRec.direction = "To New Jersey") ∧
     (c6WitRec.direction = "To New York" ↔ destLabel c6WitDest = .jstr "ToNY")) :=
  ⟨rfl, claim_C6_theorem c6WitDest [c6WitRec] rfl c6WitRec (List.mem_cons_self _ _)⟩

/-- Claim C1 (corrected).  The two upstream calls are not isolated: the
single `try/except` wrapping the whole loop means a failure of either
location's call sends the entire aggregation to the exceptional path, and
both locations get the `"N/A"` placeholder snapshot — the successful
location's data is discarded.  (The claim's per-location isolation fails —
see the counterexample, where a Manhattan timeout erases a valid Jersey
City snapshot.) -/
theorem claim_C1_theorem (d : ℕ) (jc mh : Except Unit JVal)
    (h : jc = .error () ∨ mh = .error ()) :
    get_weather_data d jc mh = fallbackPayload d := by
  unfold get_weather_data
  cases hw : weatherBody d jc mh with
  | error e => rfl
  | ok p =>
    exfalso
    obtain ⟨j1, s1, j2, s2, hj, hm, -, -⟩ := weatherBody_snapshots d jc mh p hw
    rcases h with rfl | rfl
    · exact Except.noConfusion hj
    · exact Except.noConfusion hm

/-- Claim C1 counterexample: with a successful Jersey City response
(snapshot `25°C`) and a failing Manhattan call, the aggregate's Jersey City
snapshot is the `"N/A"` placeholder, not the valid snapshot computed from
its own successful response. -/
theorem claim_C1_counterexample :
    processLocation "Jersey City" (.ok c1Resp) =
      .ok (c1Resp, ⟨"Jersey City", "25°C", "☀️"⟩) ∧
    (get_weather_data 1 (.ok c1Resp) (.error ())).jersey_city =
      ⟨"Jersey City", "N/A", defaultIcon⟩ ∧
    ("25°C" : String) ≠ "N/A" :=
  ⟨rfl, rfl, by decide⟩

/-- Claim C1 witness: a concrete outcome pair with a failing Manhattan
call, on which the aggregation returns the fallback payload. -/
theorem claim_C1_witness :
    ((.ok (.jobj []) : Except Unit JVal) = .error () ∨
     (.error () : Except Unit JVal) = .error ()) ∧
    get_weather_data 2 (.ok (.jobj [])) (.error ()) = fallbackPayload 2 :=
  ⟨Or.inr rfl, claim_C1_theorem 2 _ _ (Or.inr rfl)⟩

/-- Claim C3 (confirmed).  `get_weather_data` is total by construction (the
whole body sits in `try/except Exception`, modelled by the outer `match`):
whenever the body raises, the returned payload has both snapshots filled
with `"N/A"` temperatures and default icons, and a daylight window computed
by `calculate_sunrise_sunset` (the SolarEstimator) — never an absent
window. -/
theorem claim_C3_theorem (d : ℕ) (jc mh : Except Unit JVal) (e : Unit)
    (h : weatherBody d jc mh = .error e) :
    get_weather_data d jc mh = fallbackPayload d ∧
    (get_weather_data d jc mh).jersey_city.temperature_c = "N/A" ∧
    (get_weather_data d jc mh).manhattan.temperature_c = "N/A" ∧
    (get_weather_data d jc mh).sunrise = (calculate_sunrise_sunset_app d).1 ∧
    (get_weather_data d jc mh).sunset = (calculate_sunrise_sunset_app d).2 := by
  unfold get_weather_data
  rw [h]
  exact ⟨rfl, rfl, rfl, rfl, rfl⟩

/-- Claim C3 witness: with both upstream calls failing (the first call's
error already aborts the body), the payload is the fully `"N/A"`-filled one
with the solar-estimated daylight window. -/
theorem claim_C3_witness :
    weatherBody 3 (.error ()) (.ok (.jobj [])) = .error () ∧
    (get_weather_data 3 (.error ()) (.ok (.jobj [])) = fallbackPayload 3 ∧
     (get_weather_data 3 (.error ()) (.ok (.jobj []))).jersey_city.temperature_c = "N/A" ∧
     (get_weather_data 3 (.error ()) (.ok (.jobj []))).manhattan.temperature_c = "N/A" ∧
     (get_weather_data 3 (.error ()) (.ok (.jobj []))).sunrise = (calculate_sunrise_sunset_app 3).1 ∧
     (get_weather_data 3 (.error ()) (.ok (.jobj []))).sunset = (calculate_sunrise_sunset_app 3).2) :=
  ⟨rfl, claim_C3_theorem 3 _ _ () rfl⟩

/-- Claim C4 (corrected).  Whenever the hour-angle computation's `acos`
argument `−tan(latitude)×tan(declination)` falls outside `[−1, 1]`,
`calculate_sunrise_sunset` does not raise and returns the fixed fallback
pair — but that pair is `("6:30", "18:30")`: the sunrise string is not
zero-padded, contrary to the claimed `"06:30"`/`DaylightWindow` format (see
the counterexample). -/
theorem claim_C4_theorem (d : ℕ) (lat lon : ℝ)
    (h : acosArg d lat < -1 ∨ 1 < acosArg d lat) :
    calculate_sunrise_sunset d lat lon = ("6:30", "18:30") := by
  unfold calculate_sunrise_sunset
  rw [if_pos h]

/-- Claim C4 counterexample: at latitude 89 on day 172 the `acos` argument
is below −1 and the function returns `("6:30", "18:30")`, which differs
from the claimed zero-padded `("06:30", "18:30")`. -/
theorem claim_C4_counterexample :
    calculate_sunrise_sunset 172 89 0 = ("6:30", "18:30") ∧
    (("6:30", "18:30") : String × String) ≠ ("06:30", "18:30") := by
  constructor
  · unfold calculate_sunrise_sunset
    rw [if_pos (Or.inl acosArg_out_89_172)]
  · decide

/-- Claim C4 witness: a concrete out-of-range input (latitude 89, day 172)
on which the fallback pair is returned. -/
theorem claim_C4_witness :
    (acosArg 172 89 < -1 ∨ 1 < acosArg 172 89) ∧
    calculate_sunrise_sunset 172 89 0 = ("6:30", "18:30") :=
  ⟨Or.inl acosArg_out_89_172, claim_C4_theorem 172 89 0 (Or.inl acosArg_out_89_172)⟩

/-- Claim C8 (confirmed).  When the `acos` argument lies in `[−1, 1]`,
`calculate_sunrise_sunset` computes exactly the spec's sunrise/sunset hour
formulas (with the spec's declination inside `acosArg`), converts both to
minutes, reduces modulo 1440, and formats both as zero-padded `HH:MM`
within `[00:00, 23:59]`.  Determinism in the date is inherent: the
embedding is a pure function of `(day_of_year, lat, lon)`. -/
theorem claim_C8_theorem (d : ℕ) (lat lon : ℝ)
    (h1 : -1 ≤ acosArg d lat) (h2 : acosArg d lat ≤ 1) :
    calculate_sunrise_sunset d lat lon =
      (format_hour_to_hhmm (sunriseHourSpec d lat lon),
       format_hour_to_hhmm (sunsetHourSpec d lat lon)) ∧
    isHHMM (calculate_sunrise_sunset d lat lon).1 ∧
    isHHMM (calculate_sunrise_sunset d lat lon).2 := by
  have hno : ¬(acosArg d lat < -1 ∨ 1 < acosArg d lat) := by
    push_neg
    exact ⟨h1, h2⟩
  unfold calculate_sunrise_sunset
  rw [if_neg hno]
  exact ⟨rfl, format_isHHMM _, format_isHHMM _⟩

/-- Claim C8 witness: at latitude 0 the `acos` argument is 0, inside
`[−1, 1]`, and the computed pair matches the spec formulas and the `HH:MM`
format. -/
theorem claim_C8_witness :
    (-1 ≤ acosArg 1 0 ∧ acosArg 1 0 ≤ 1) ∧
    (calculate_sunrise_sunset 1 0 0 =
      (format_hour_to_hhmm (sunriseHourSpec 1 0 0),
       format_hour_to_hhmm (sunsetHourSpec 1 0 0)) ∧
     isHHMM (calculate_sunrise_sunset 1 0 0).1 ∧
     isHHMM (calculate_sunrise_sunset 1 0 0).2) := by
  have h0 : acosArg 1 0 = 0 := by
    simp [acosArg, radiansOf]
  refine ⟨⟨by rw [h0]; norm_num, by rw [h0]; norm_num⟩,
          claim_C8_theorem 1 0 0 (by rw [h0]; norm_num) (by rw [h0]; norm_num)⟩

/-- Claim C9 (confirmed).  On the success path, a response whose
`current_weather` object lacks a `temperature` field yields the rounded
default `0`, rendered `"0°C"`, for that location — never the `"N/A"`
placeholder; indeed no success-path snapshot can carry `"N/A"`, which
arises only from the exceptional path. -/
theorem claim_C9_theorem (d : ℕ) (jc mh : Except Unit JVal) (p : WPayload)
    (h : weatherBody d jc mh = .ok p) :
    (∀ kvs cw, jc = .ok (.jobj kvs) →
        lookupKv kvs "current_weather" = some (.jobj cw) →
        lookupKv cw "temperature" = none →
        p.jersey_city.temperature_c = "0°C") ∧
    (∀ kvs cw, mh = .ok (.jobj kvs) →
        lookupKv kvs "current_weather" = some (.jobj cw) →
        lookupKv cw "temperature" = none →
        p.manhattan.temperature_c = "0°C") ∧
    p.jersey_city.temperature_c ≠ "N/A" ∧ p.manhattan.temperature_c ≠ "N/A" := by
  obtain ⟨j1, s1, j2, s2, hj, hm, hpj, hpm⟩ := weatherBody_snapshots d jc mh p h
  refine ⟨?_, ?_, ?_, ?_⟩
  · intro kvs cw hjc hcw ht
    subst hjc
    rw [hpj]
    exact processLocation_missing_temp _ kvs cw _ hj hcw ht
  · intro kvs cw hmh hcw ht
    subst hmh
    rw [hpm]
    exact processLocation_missing_temp _ kvs cw _ hm hcw ht
  · rw [hpj]
    obtain ⟨-, t, ht⟩ := processLocation_ok_shape _ _ _ hj
    rw [ht]
    exact tempStr_ne_NA t
  · rw [hpm]
    obtain ⟨-, t, ht⟩ := processLocation_ok_shape _ _ _ hm
    rw [ht]
    exact tempStr_ne_NA t

/-- Claim C9 witness: both locations' responses lack a temperature and the
aggregation succeeds, producing `"0°C"` snapshots for both. -/
theorem claim_C9_witness :
    weatherBody 1 (.ok c9JC) (.ok c9MH) = .ok c9Payload ∧
    c9Payload.jersey_city.temperature_c = "0°C" ∧
    c9Payload.manhattan.temperature_c = "0°C" := by
  refine ⟨rfl, ?_, ?_⟩
  · exact (claim_C9_theorem 1 (.ok c9JC) (.ok c9MH) c9Payload rfl).1
      [("current_weather", .jobj []),
       ("daily", .jobj [("sunrise", .jarr [.jstr "2024-06-15T05:30:00"]),
                        ("sunset", .jarr [.jstr "2024-06-15T20:28:00"])])]
      [] rfl rfl rfl
  · exact (claim_C9_theorem 1 (.ok c9JC) (.ok c9MH) c9Payload rfl).2.1
      [("current_weather", .jobj [])] [] rfl rfl rfl

/-- Claim C10 (confirmed).  A payload containing a station matching
`"GRV"` whose destinations are absent, empty, or consist only of groups
with absent-or-empty message lists normalizes to the empty list — `some []`,
not absent — distinguishing \"station found with no departures\" from
\"no data / station not found\". -/
theorem claim_C10_theorem (kvs skvs : List (String × JVal)) (pre post : List JVal)
    (hres : lookupKv kvs "results" = some (.jarr (pre ++ .jobj skvs :: post)))
    (hpre : ∀ s ∈ pre, ∃ pk, s = .jobj pk ∧ isGRVStation s = false)
    (hmatch : isGRVStation (.jobj skvs) = true)
    (hdest : emptyDestGroups ((lookupKv skvs "destinations").getD (.jarr []))) :
    get_grove_street_departures (some (.jobj kvs)) = .ok (some []) := by
  have hkvs : truthy (.jobj kvs) = true := by
    cases kvs with
    | nil => simp [lookupKv] at hres
    | cons p ps => rfl
  simp only [get_grove_street_departures, hkvs, Bool.not_true, pyContains, hres,
    Option.isSome_some, pySubscript, pyIter]
  rw [findGRV_append_skip pre (.jobj skvs :: post) hpre]
  unfold findGRV
  have hm : pyEqStr ((lookupKv skvs "consideredStation").getD .jnull) "GRV" = true := hmatch
  simp only [stationMatches, hm, processStation_empty skvs hdest]
  rfl

/-- Claim C10 witness: a payload whose matched `"GRV"` station has no
destinations key normalizes to `some []`. -/
theorem claim_C10_witness :
    isGRVStation (.jobj [("consideredStation", .jstr "GRV")]) = true ∧
    emptyDestGroups ((lookupKv [("consideredStation", .jstr "GRV")] "destinations").getD (.jarr [])) ∧
    get_grove_street_departures
      (some (.jobj [("results", .jarr [.jobj [("consideredStation", .jstr "GRV")]])])) =
      .ok (some []) := by
  refine ⟨rfl, ⟨[], rfl, by simp⟩, ?_⟩
  exact claim_C10_theorem [("results", .jarr [.jobj [("consideredStation", .jstr "GRV")]])]
    [("consideredStation", .jstr "GRV")] [] [] rfl (by simp) rfl ⟨[], rfl, by simp⟩

end PathApp
